import Mathlib

/-!
Verification of the alphavantage client library's specification against its
source.  The exchange-rate parsing pipeline (`src/exchange_rate.rs`) and the
client's status-code handling and request construction (`src/client.rs`) are
embedded shallowly.  Parts of the crate that are referenced but not present
in the source tree (the `deserialize` helpers `from_str` / `to_datetime`, the
`APIRequestBuilder` of `api.rs`, the `Function` / `IntradayInterval` types of
`time_series.rs`, and the `Error` enum of `error.rs`) are modelled from the
specification, as marked on each definition.  Rust `f64` values parsed from
decimal strings are modelled as exact rationals.
-/

namespace AlphaVantage

/-- A JSON value, as produced by the JSON library from well-formed input. -/
inductive Json where
  | null : Json
  | bool (b : Bool) : Json
  | num (q : ℚ) : Json
  | str (s : String) : Json
  | arr (elems : List Json) : Json
  | obj (fields : List (String × Json)) : Json

/-- `Currency` from `src/exchange_rate.rs`: a name and a code. -/
structure Currency where
  name : String
  code : String
deriving DecidableEq, Repr

/-- A UTC calendar timestamp, embedding chrono's `DateTime<Utc>` for the
fixed `YYYY-MM-DD HH:MM:SS` format used by the crate. -/
structure DateTimeUtc where
  year : Nat
  month : Nat
  day : Nat
  hour : Nat
  minute : Nat
  second : Nat
deriving DecidableEq, Repr

/-- `ExchangeRate` from `src/exchange_rate.rs`.  The Rust fields `from` and
`to` are Lean keywords and are rendered `from_` / `to_`; the `f64` rate is
modelled as an exact rational. -/
structure ExchangeRate where
  from_ : Currency
  to_ : Currency
  rate : ℚ
  date : DateTimeUtc
deriving DecidableEq, Repr

/-- The intermediate deserialization target `RealtimeExchangeRate` from
`src/exchange_rate.rs` (serde renames give the wire field names). -/
structure RealtimeExchangeRate where
  from_code : String
  from_name : String
  to_code : String
  to_name : String
  rate : ℚ
  last_refreshed : DateTimeUtc
  time_zone : String
deriving DecidableEq, Repr

/-- The envelope struct `ExchangeRateHelper` from `src/exchange_rate.rs`:
its single field `data` is deserialized from the wire key
"Realtime Currency Exchange Rate". -/
structure ExchangeRateHelper where
  data : RealtimeExchangeRate
deriving DecidableEq, Repr

/-- The crate's error taxonomy.  Modelled from the spec: `error.rs` is not in
the source tree; spec section 7 lists transport, server (with status code),
deserialization and validation errors. -/
inductive Error where
  | transport (msg : String) : Error
  | serverError (status : Nat) : Error
  | deserialization (msg : String) : Error
  | validation (msg : String) : Error
deriving DecidableEq, Repr

/-- Numeric value of a digit list (most significant first). -/
def digitsVal (cs : List Char) : Nat :=
  cs.foldl (fun a c => a * 10 + (c.toNat - 48)) 0

/-- Parse an unsigned decimal `digits[.digits]` character list exactly. -/
def parseUnsignedDecimal (cs : List Char) : Option ℚ :=
  let intPart := cs.takeWhile Char.isDigit
  let rest := cs.dropWhile Char.isDigit
  if intPart.isEmpty then none
  else
    match rest with
    | [] => some (Rat.divInt (digitsVal intPart) 1)
    | '.' :: fracPart =>
      if fracPart.isEmpty then none
      else if fracPart.all Char.isDigit then
        some (Rat.divInt (digitsVal intPart * 10 ^ fracPart.length + digitsVal fracPart)
          (10 ^ fracPart.length))
      else none
    | _ => none

/-- Modelled from the spec: the `deserialize::from_str` coercion of
`deserialize.rs` is not in the source tree; the spec says the rate field is
coerced "from its string representation to a 64-bit float", a
"string-encoded decimal".  Parsed exactly into a rational. -/
def parseDecimal (s : String) : Option ℚ :=
  match s.toList with
  | '-' :: rest => (parseUnsignedDecimal rest).map (fun q => -q)
  | cs => parseUnsignedDecimal cs

/-- Two ASCII digits to a number. -/
def twoDigits (a b : Char) : Option Nat :=
  if a.isDigit && b.isDigit then some ((a.toNat - 48) * 10 + (b.toNat - 48)) else none

/-- Modelled from the spec: the `deserialize::to_datetime` coercion of
`deserialize.rs` is not in the source tree; the spec fixes the format
`YYYY-MM-DD HH:MM:SS`, always interpreted as UTC. -/
def parseDatetime (s : String) : Option DateTimeUtc :=
  match s.toList with
  | [y1, y2, y3, y4, '-', m1, m2, '-', d1, d2, ' ', h1, h2, ':', n1, n2, ':', s1, s2] =>
    if [y1, y2, y3, y4].all Char.isDigit then
      match twoDigits m1 m2, twoDigits d1 d2, twoDigits h1 h2,
            twoDigits n1 n2, twoDigits s1 s2 with
      | some mo, some da, some ho, some mi, some se =>
        if 1 ≤ mo && mo ≤ 12 && 1 ≤ da && da ≤ 31 && ho ≤ 23 && mi ≤ 59 && se ≤ 59 then
          some ⟨digitsVal [y1, y2, y3, y4], mo, da, ho, mi, se⟩
        else none
      | _, _, _, _, _ => none
    else none
  | _ => none

/-- First value bound to `key` in a JSON object's field list. -/
def getField : List (String × Json) → String → Option Json
  | [], _ => none
  | (k, v) :: rest, key => if k = key then some v else getField rest key

/-- serde: a required struct field that must be a JSON string. -/
def getStr (fields : List (String × Json)) (key : String) : Except String String :=
  match getField fields key with
  | some (Json.str s) => Except.ok s
  | some _ => Except.error ("invalid type for field " ++ key)
  | none => Except.error ("missing field " ++ key)

/-- serde with `deserialize_with = "from_str"`: a string field coerced to a
number; failure is a deserialization-class error. -/
def getDecimal (fields : List (String × Json)) (key : String) : Except String ℚ :=
  (getStr fields key).bind fun s =>
    match parseDecimal s with
    | some q => Except.ok q
    | none => Except.error ("invalid decimal for field " ++ key)

/-- serde with `deserialize_with = "to_datetime"`: a string field coerced to
a UTC timestamp; failure is a deserialization-class error. -/
def getDatetime (fields : List (String × Json)) (key : String) : Except String DateTimeUtc :=
  (getStr fields key).bind fun s =>
    match parseDatetime s with
    | some d => Except.ok d
    | none => Except.error ("invalid datetime for field " ++ key)

/-- serde deserialization of `RealtimeExchangeRate` (the `#[serde(rename)]`
attributes in `src/exchange_rate.rs` give the seven numbered wire names). -/
def deserializeRealtime (j : Json) : Except String RealtimeExchangeRate :=
  match j with
  | Json.obj fields =>
    (getStr fields "1. From_Currency Code").bind fun from_code =>
    (getStr fields "2. From_Currency Name").bind fun from_name =>
    (getStr fields "3. To_Currency Code").bind fun to_code =>
    (getStr fields "4. To_Currency Name").bind fun to_name =>
    (getDecimal fields "5. Exchange Rate").bind fun rate =>
    (getDatetime fields "6. Last Refreshed").bind fun last_refreshed =>
    (getStr fields "7. Time Zone").map fun time_zone =>
      ⟨from_code, from_name, to_code, to_name, rate, last_refreshed, time_zone⟩
  | _ => Except.error "invalid type: expected an object for Realtime Currency Exchange Rate"

/-- serde deserialization of `ExchangeRateHelper`: the envelope object must
carry the key "Realtime Currency Exchange Rate". -/
def deserializeHelper (j : Json) : Except String ExchangeRateHelper :=
  match j with
  | Json.obj fields =>
    match getField fields "Realtime Currency Exchange Rate" with
    | some inner => (deserializeRealtime inner).map fun data => ⟨data⟩
    | none => Except.error "missing field Realtime Currency Exchange Rate"
  | _ => Except.error "invalid type: expected an object"

/-- Input handed to `serde_json::from_reader`: either syntactically malformed
bytes (the JSON library reports an error) or a well-formed JSON document. -/
inductive ReadInput where
  | malformed (msg : String) : ReadInput
  | json (j : Json) : ReadInput

/-- `parser::parse` from `src/exchange_rate.rs`: deserialize the helper, fail
on it with a deserialization error, reject a non-"UTC" time zone with the
error message `unsupported time zone: {zone}`, otherwise assemble the
`ExchangeRate` from the helper's fields. -/
def parse (r : ReadInput) : Except Error ExchangeRate :=
  match r with
  | ReadInput.malformed msg => Except.error (Error.deserialization msg)
  | ReadInput.json j =>
    match deserializeHelper j with
    | Except.error e => Except.error (Error.deserialization e)
    | Except.ok helper =>
      if helper.data.time_zone ≠ "UTC" then
        Except.error (Error.validation ("unsupported time zone: " ++ helper.data.time_zone))
      else
        Except.ok
          { from_ := { name := helper.data.from_name, code := helper.data.from_code }
            to_ := { name := helper.data.to_name, code := helper.data.to_code }
            rate := helper.data.rate
            date := helper.data.last_refreshed }

/-- A request descriptor: the query parameters carried by the request.
Modelled from the spec: `api.rs` (`APIRequest`) is not in the source tree;
spec section 4.1 says a request is the endpoint URL plus query parameters
including the function token and API key. -/
structure APIRequest where
  query : List (String × String)
deriving DecidableEq, Repr

/-- `APIRequestBuilder::create`.  Modelled from the spec: `api.rs` is not in
the source tree; spec sections 4.1 and 6 say the query always includes the
`function` token and `apikey`, with the caller's parameters passed through
verbatim, and that building a request is pure and total. -/
def createRequest (apikey : String) (function : String)
    (params : List (String × String)) : APIRequest :=
  ⟨("function", function) :: params ++ [("apikey", apikey)]⟩

/-- `IntradayInterval` from `time_series.rs`.  Modelled from the spec: that
file is not in the source tree; spec section 3 gives the enumerated
1/5/15/30/60-minute granularities with string tokens like "1min", "5min". -/
inductive IntradayInterval where
  | oneMin : IntradayInterval
  | fiveMin : IntradayInterval
  | fifteenMin : IntradayInterval
  | thirtyMin : IntradayInterval
  | sixtyMin : IntradayInterval
deriving DecidableEq, Repr

/-- The interval's API string token (Rust `interval.to_string()`).  Modelled
from the spec: `time_series.rs` is not in the source tree. -/
def IntradayInterval.token : IntradayInterval → String
  | IntradayInterval.oneMin => "1min"
  | IntradayInterval.fiveMin => "5min"
  | IntradayInterval.fifteenMin => "15min"
  | IntradayInterval.thirtyMin => "30min"
  | IntradayInterval.sixtyMin => "60min"

/-- `Function` from `time_series.rs`.  Modelled from the spec: that file is
not in the source tree; spec section 3 gives the closed variant set
IntraDay(interval), Daily, Weekly, Monthly. -/
inductive Function where
  | intraDay (interval : IntradayInterval) : Function
  | daily : Function
  | weekly : Function
  | monthly : Function
deriving DecidableEq, Repr

/-- The variant's fixed upstream function token (Rust `function.into()`).
Modelled from the spec: `time_series.rs` is not in the source tree; spec
section 6 lists the literal tokens. -/
def Function.token : Function → String
  | Function.intraDay _ => "TIME_SERIES_INTRADAY"
  | Function.daily => "TIME_SERIES_DAILY"
  | Function.weekly => "TIME_SERIES_WEEKLY"
  | Function.monthly => "TIME_SERIES_MONTHLY"

/-- Request construction performed by `Client::get_exchange_rate` in
`src/client.rs`: function token "CURRENCY_EXCHANGE_RATE" with the
`from_currency` / `to_currency` parameters. -/
def exchangeRateRequest (apikey from_currency_code to_currency_code : String) : APIRequest :=
  createRequest apikey "CURRENCY_EXCHANGE_RATE"
    [("from_currency", from_currency_code), ("to_currency", to_currency_code)]

/-- Request construction performed by `Client::get_time_series` in
`src/client.rs`: the `symbol` parameter always, plus an `interval` parameter
exactly for the IntraDay variant. -/
def timeSeriesRequest (apikey : String) (function : Function) (symbol : String) : APIRequest :=
  let params :=
    match function with
    | Function.intraDay interval => [("symbol", symbol), ("interval", interval.token)]
    | _ => [("symbol", symbol)]
  createRequest apikey function.token params

/-- First value bound to `key` among a request's query parameters. -/
def lookupParam : List (String × String) → String → Option String
  | [], _ => none
  | (k, v) :: rest, key => if k = key then some v else lookupParam rest key

/-- Outcome of executing the request on the HTTP transport: either a
transport-level failure reported by the HTTP library, or a response with a
status code and a body. -/
inductive TransportOutcome where
  | failure (msg : String) : TransportOutcome
  | response (status : Nat) (body : ReadInput) : TransportOutcome

/-- `Client::api_call` from `src/client.rs`: a transport failure propagates
as a transport error (the `?` on `execute`), a status other than 200 yields
`Error::ServerError(status)`, and only a 200 response yields its body. -/
def api_call (outcome : TransportOutcome) : Except Error ReadInput :=
  match outcome with
  | TransportOutcome.failure msg => Except.error (Error.transport msg)
  | TransportOutcome.response status body =>
    if status ≠ 200 then Except.error (Error.serverError status)
    else Except.ok body

/-- The response-handling tail of `Client::get_exchange_rate` in
`src/client.rs`: `api_call` followed by `exchange_rate::parser::parse`. -/
def getExchangeRateResult (outcome : TransportOutcome) : Except Error ExchangeRate :=
  match api_call outcome with
  | Except.error e => Except.error e
  | Except.ok body => parse body

/-- The repository's own fixture (`tests/json/currency_exchange_rate.json`,
reproduced field-by-field in the spec's end-to-end scenario), with the time
zone left as a parameter so non-UTC variants can be built. -/
def fixtureFieldsTz (tz : String) : List (String × Json) :=
  [("1. From_Currency Code", Json.str "EUR"),
   ("2. From_Currency Name", Json.str "Euro"),
   ("3. To_Currency Code", Json.str "USD"),
   ("4. To_Currency Name", Json.str "United States Dollar"),
   ("5. Exchange Rate", Json.str "1.16665014"),
   ("6. Last Refreshed", Json.str "2018-06-23 10:27:49"),
   ("7. Time Zone", Json.str tz)]

/-- The fixture document with time zone `tz`. -/
def fixtureJsonTz (tz : String) : Json :=
  Json.obj [("Realtime Currency Exchange Rate", Json.obj (fixtureFieldsTz tz))]

/-- The intermediate record the fixture deserializes into, with time zone
`tz`. -/
def fixtureRealtime (tz : String) : RealtimeExchangeRate :=
  ⟨"EUR", "Euro", "USD", "United States Dollar",
   Rat.divInt 116665014 100000000, ⟨2018, 6, 23, 10, 27, 49⟩, tz⟩

/-- A successful `getStr` means the field is present and holds exactly that
JSON string. -/
theorem getStr_ok {fields : List (String × Json)} {key s : String}
    (h : getStr fields key = Except.ok s) :
    getField fields key = some (Json.str s) := by
  unfold getStr at h
  cases hg : getField fields key with
  | none => rw [hg] at h; exact absurd h (by simp)
  | some v =>
    rw [hg] at h
    cases v <;> simp_all

/-- A successfully deserialized `RealtimeExchangeRate` copies its four
currency strings and its time-zone string byte-for-byte from the source
JSON object. -/
theorem deserializeRealtime_ok_fields {fields : List (String × Json)}
    {h : RealtimeExchangeRate}
    (hre : deserializeRealtime (Json.obj fields) = Except.ok h) :
    getField fields "1. From_Currency Code" = some (Json.str h.from_code)
    ∧ getField fields "2. From_Currency Name" = some (Json.str h.from_name)
    ∧ getField fields "3. To_Currency Code" = some (Json.str h.to_code)
    ∧ getField fields "4. To_Currency Name" = some (Json.str h.to_name)
    ∧ getField fields "7. Time Zone" = some (Json.str h.time_zone) := by
  simp only [deserializeRealtime] at hre
  cases g1 : getStr fields "1. From_Currency Code" with
  | error e => rw [g1] at hre; exact absurd hre (by simp [Except.bind, Except.map])
  | ok s1 =>
  rw [g1] at hre
  cases g2 : getStr fields "2. From_Currency Name" with
  | error e => rw [g2] at hre; exact absurd hre (by simp [Except.bind, Except.map])
  | ok s2 =>
  rw [g2] at hre
  cases g3 : getStr fields "3. To_Currency Code" with
  | error e => rw [g3] at hre; exact absurd hre (by simp [Except.bind, Except.map])
  | ok s3 =>
  rw [g3] at hre
  cases g4 : getStr fields "4. To_Currency Name" with
  | error e => rw [g4] at hre; exact absurd hre (by simp [Except.bind, Except.map])
  | ok s4 =>
  rw [g4] at hre
  cases g5 : getDecimal fields "5. Exchange Rate" with
  | error e => rw [g5] at hre; exact absurd hre (by simp [Except.bind, Except.map])
  | ok q =>
  rw [g5] at hre
  cases g6 : getDatetime fields "6. Last Refreshed" with
  | error e => rw [g6] at hre; exact absurd hre (by simp [Except.bind, Except.map])
  | ok d =>
  rw [g6] at hre
  cases g7 : getStr fields "7. Time Zone" with
  | error e => rw [g7] at hre; exact absurd hre (by simp [Except.bind, Except.map])
  | ok s7 =>
  rw [g7] at hre
  simp only [Except.bind, Except.map, Except.ok.injEq] at hre
  subst hre
  exact ⟨getStr_ok g1, getStr_ok g2, getStr_ok g3, getStr_ok g4, getStr_ok g7⟩

/-- C1: for every exchange-rate JSON document that deserializes but whose
"7. Time Zone" field is not the string "UTC", `parser::parse` fails with the
validation error `unsupported time zone: {zone}` naming the actual offending
zone string, and no `ExchangeRate` value is produced. -/
theorem c1_non_utc_zone_rejected (j : Json) (h : RealtimeExchangeRate)
    (hd : deserializeHelper j = Except.ok ⟨h⟩) (hz : h.time_zone ≠ "UTC") :
    parse (ReadInput.json j) =
      Except.error (Error.validation ("unsupported time zone: " ++ h.time_zone)) := by
  simp only [parse]
  rw [hd]
  simp [hz]

/-- Witness for C1 at the fixture document with time zone "EST". -/
theorem c1_non_utc_zone_rejected_witness :
    parse (ReadInput.json (fixtureJsonTz "EST")) =
      Except.error (Error.validation ("unsupported time zone: " ++ "EST")) :=
  c1_non_utc_zone_rejected (fixtureJsonTz "EST") (fixtureRealtime "EST") (by rfl) (by decide)

/-- C2: for every well-formed exchange-rate document with the envelope key,
all seven numbered sub-fields, time zone exactly "UTC", and a parseable
decimal rate string, `parser::parse` succeeds and the returned rate equals
the value parsed from the "5. Exchange Rate" source string. -/
theorem c2_utc_parse_ok (env fields : List (String × Json))
    (fc fn tc tn rs ds : String) (q : ℚ) (d : DateTimeUtc)
    (henv : getField env "Realtime Currency Exchange Rate" = some (Json.obj fields))
    (h1 : getField fields "1. From_Currency Code" = some (Json.str fc))
    (h2 : getField fields "2. From_Currency Name" = some (Json.str fn))
    (h3 : getField fields "3. To_Currency Code" = some (Json.str tc))
    (h4 : getField fields "4. To_Currency Name" = some (Json.str tn))
    (h5 : getField fields "5. Exchange Rate" = some (Json.str rs))
    (hq : parseDecimal rs = some q)
    (h6 : getField fields "6. Last Refreshed" = some (Json.str ds))
    (hd : parseDatetime ds = some d)
    (h7 : getField fields "7. Time Zone" = some (Json.str "UTC")) :
    parse (ReadInput.json (Json.obj env)) = Except.ok ⟨⟨fn, fc⟩, ⟨tn, tc⟩, q, d⟩ := by
  simp [parse, deserializeHelper, deserializeRealtime, getStr, getDecimal, getDatetime,
    henv, h1, h2, h3, h4, h5, h6, h7, hq, hd, Except.bind, Except.map]

/-- Witness for C2 at the repository's fixture document. -/
theorem c2_utc_parse_ok_witness :
    parse (ReadInput.json (fixtureJsonTz "UTC")) =
      Except.ok ⟨⟨"Euro", "EUR"⟩, ⟨"United States Dollar", "USD"⟩,
        Rat.divInt 116665014 100000000, ⟨2018, 6, 23, 10, 27, 49⟩⟩ :=
  c2_utc_parse_ok [("Realtime Currency Exchange Rate", Json.obj (fixtureFieldsTz "UTC"))]
    (fixtureFieldsTz "UTC") "EUR" "Euro" "USD" "United States Dollar"
    "1.16665014" "2018-06-23 10:27:49"
    (Rat.divInt 116665014 100000000) ⟨2018, 6, 23, 10, 27, 49⟩
    (by rfl) (by rfl) (by rfl) (by rfl) (by rfl) (by rfl) (by rfl) (by rfl) (by rfl) (by rfl)

/-- C3: the repository's fixture (EUR/Euro → USD/United States Dollar, rate
string "1.16665014", last refreshed "2018-06-23 10:27:49", time zone "UTC")
parses to exactly the expected `ExchangeRate`, with
rate 1.16665014 = 116665014/100000000 and date 2018-06-23T10:27:49Z. -/
theorem c3_fixture_end_to_end :
    parse (ReadInput.json (fixtureJsonTz "UTC")) =
      Except.ok ⟨⟨"Euro", "EUR"⟩, ⟨"United States Dollar", "USD"⟩,
        (116665014 : ℚ) / 100000000, ⟨2018, 6, 23, 10, 27, 49⟩⟩ := by
  have hrat : Rat.divInt 116665014 100000000 = (116665014 : ℚ) / 100000000 := by
    norm_num [Rat.divInt]
  rw [← hrat]
  rfl

/-- C4: a response with any status code other than 200 makes `api_call` fail
with `ServerError` carrying exactly that status code; the body is never
handed to the parser (the whole exchange-rate pipeline returns the same
`ServerError` whatever the body holds); a transport-level failure instead
propagates as the distinct transport error kind. -/
theorem c4_non_200_server_error (status : Nat) (body : ReadInput) (hs : status ≠ 200) :
    api_call (TransportOutcome.response status body) =
        Except.error (Error.serverError status)
    ∧ getExchangeRateResult (TransportOutcome.response status body) =
        Except.error (Error.serverError status)
    ∧ ∀ msg, api_call (TransportOutcome.failure msg) =
        Except.error (Error.transport msg) := by
  refine ⟨?_, ?_, fun msg => rfl⟩ <;> simp [api_call, getExchangeRateResult, hs]

/-- Witness for C4 at status 429 with an arbitrary body. -/
theorem c4_non_200_server_error_witness :
    api_call (TransportOutcome.response 429 (ReadInput.json Json.null)) =
        Except.error (Error.serverError 429)
    ∧ getExchangeRateResult (TransportOutcome.response 429 (ReadInput.json Json.null)) =
        Except.error (Error.serverError 429)
    ∧ ∀ msg, api_call (TransportOutcome.failure msg) =
        Except.error (Error.transport msg) :=
  c4_non_200_server_error 429 (ReadInput.json Json.null) (by decide)

/-- C5: for every pair of currency-code strings, the request built by
`get_exchange_rate` carries the function token "CURRENCY_EXCHANGE_RATE",
`from_currency` and `to_currency` set verbatim to the caller's arguments,
and the client's `apikey`. -/
theorem c5_exchange_rate_request_params (key fc tc : String) :
    lookupParam (exchangeRateRequest key fc tc).query "function" =
        some "CURRENCY_EXCHANGE_RATE"
    ∧ lookupParam (exchangeRateRequest key fc tc).query "from_currency" = some fc
    ∧ lookupParam (exchangeRateRequest key fc tc).query "to_currency" = some tc
    ∧ lookupParam (exchangeRateRequest key fc tc).query "apikey" = some key :=
  ⟨rfl, rfl, rfl, rfl⟩

/-- C6: every `Function` variant's request carries that variant's fixed
literal function token, and an `interval` parameter (equal to the interval's
token) exactly when the variant is IntraDay. -/
theorem c6_time_series_tokens (key symbol : String) (f : Function) :
    lookupParam (timeSeriesRequest key f symbol).query "function" = some f.token
    ∧ lookupParam (timeSeriesRequest key f symbol).query "interval" =
        (match f with
         | Function.intraDay interval => some interval.token
         | _ => none) := by
  cases f <;> exact ⟨rfl, rfl⟩

/-- C7: request building is total and pure by construction, and reading the
built request's parameters back recovers the original symbol and the
original function token unchanged, for every `(Function, symbol)` pair. -/
theorem c7_request_round_trip (key symbol : String) (f : Function) :
    lookupParam (timeSeriesRequest key f symbol).query "symbol" = some symbol
    ∧ lookupParam (timeSeriesRequest key f symbol).query "function" = some f.token := by
  cases f <;> exact ⟨rfl, rfl⟩

/-- C8: the time-zone acceptance test is an exact, case-sensitive string
comparison — for every document that deserializes, `parser::parse` succeeds
exactly when the "7. Time Zone" field is the exact string "UTC"; every other
value, including "utc", " UTC" or "Utc", is rejected. -/
theorem c8_time_zone_exact_match (j : Json) (h : RealtimeExchangeRate)
    (hd : deserializeHelper j = Except.ok ⟨h⟩) :
    (∃ er, parse (ReadInput.json j) = Except.ok er) ↔ h.time_zone = "UTC" := by
  simp only [parse]
  rw [hd]
  by_cases hz : h.time_zone = "UTC" <;> simp [hz]

/-- Witness for C8 at the fixture document with time zone "utc": lowercase
is not accepted. -/
theorem c8_time_zone_exact_match_witness :
    (∃ er, parse (ReadInput.json (fixtureJsonTz "utc")) = Except.ok er) ↔
      ("utc" : String) = "UTC" :=
  c8_time_zone_exact_match (fixtureJsonTz "utc") (fixtureRealtime "utc") (by rfl)

/-- C9: every successfully parsed exchange-rate document returns `Currency`
strings that are byte-for-byte copies of the source JSON values: `from.code`
is field "1. From_Currency Code", `from.name` is "2. From_Currency Name",
`to.code` is "3. To_Currency Code" and `to.name` is "4. To_Currency Name". -/
theorem c9_currency_fields_verbatim (env fields : List (String × Json))
    (er : ExchangeRate)
    (henv : getField env "Realtime Currency Exchange Rate" = some (Json.obj fields))
    (hok : parse (ReadInput.json (Json.obj env)) = Except.ok er) :
    getField fields "1. From_Currency Code" = some (Json.str er.from_.code)
    ∧ getField fields "2. From_Currency Name" = some (Json.str er.from_.name)
    ∧ getField fields "3. To_Currency Code" = some (Json.str er.to_.code)
    ∧ getField fields "4. To_Currency Name" = some (Json.str er.to_.name) := by
  simp only [parse, deserializeHelper, henv] at hok
  cases hre : deserializeRealtime (Json.obj fields) with
  | error e => rw [hre] at hok; exact absurd hok (by simp [Except.map])
  | ok h =>
    rw [hre] at hok
    simp only [Except.map] at hok
    by_cases hz : h.time_zone = "UTC"
    · simp only [hz, ne_eq, not_true_eq_false, if_false, ite_false, if_neg,
        not_false_eq_true, Except.ok.injEq] at hok
      obtain ⟨hf1, hf2, hf3, hf4, _⟩ := deserializeRealtime_ok_fields hre
      subst hok
      exact ⟨hf1, hf2, hf3, hf4⟩
    · exact absurd hok (by simp [hz])

/-- Witness for C9 at the repository's fixture document. -/
theorem c9_currency_fields_verbatim_witness :
    getField (fixtureFieldsTz "UTC") "1. From_Currency Code" = some (Json.str "EUR")
    ∧ getField (fixtureFieldsTz "UTC") "2. From_Currency Name" = some (Json.str "Euro")
    ∧ getField (fixtureFieldsTz "UTC") "3. To_Currency Code" = some (Json.str "USD")
    ∧ getField (fixtureFieldsTz "UTC") "4. To_Currency Name" =
        some (Json.str "United States Dollar") :=
  c9_currency_fields_verbatim
    [("Realtime Currency Exchange Rate", Json.obj (fixtureFieldsTz "UTC"))]
    (fixtureFieldsTz "UTC")
    ⟨⟨"Euro", "EUR"⟩, ⟨"United States Dollar", "USD"⟩,
      Rat.divInt 116665014 100000000, ⟨2018, 6, 23, 10, 27, 49⟩⟩
    (by rfl) (by rfl)

/-- C10: structural deserialization failure takes precedence over time-zone
validation: malformed JSON and every document the helper deserialization
rejects yield a deserialization-class error, and a validation error can only
arise from a document that deserialized completely (and then reported a
non-"UTC" zone). -/
theorem c10_deserialization_precedence :
    (∀ msg, parse (ReadInput.malformed msg) = Except.error (Error.deserialization msg))
    ∧ (∀ j e, deserializeHelper j = Except.error e →
        parse (ReadInput.json j) = Except.error (Error.deserialization e))
    ∧ (∀ r m, parse r = Except.error (Error.validation m) →
        ∃ j h, r = ReadInput.json j ∧ deserializeHelper j = Except.ok ⟨h⟩ ∧
          h.time_zone ≠ "UTC" ∧ m = "unsupported time zone: " ++ h.time_zone) := by
  refine ⟨fun msg => rfl, fun j e he => by simp only [parse]; rw [he], fun r m hp => ?_⟩
  cases r with
  | malformed msg => exact absurd hp (by simp [parse])
  | json j =>
    cases hd : deserializeHelper j with
    | error e => rw [parse, hd] at hp; exact absurd hp (by simp)
    | ok helper =>
      obtain ⟨h⟩ := helper
      by_cases hz : h.time_zone = "UTC"
      · rw [parse, hd] at hp
        exact absurd hp (by simp [hz])
      · refine ⟨j, h, rfl, hd, hz, ?_⟩
        rw [parse, hd] at hp
        simp [hz] at hp
        exact hp.symm

/-- Witness for C10: a document missing the envelope key yields the
deserialization-class error. -/
theorem c10_deserialization_precedence_witness :
    parse (ReadInput.json (Json.obj [])) =
      Except.error (Error.deserialization "missing field Realtime Currency Exchange Rate") :=
  c10_deserialization_precedence.2.1 (Json.obj [])
    "missing field Realtime Currency Exchange Rate" (by rfl)

end AlphaVantage
